import Mathlib

/-!
Verification of the smart-doc-qa repository against its specification.

The repository sources available are the Next.js frontend components
(QuestionAnswer, DocumentUpload, DocumentList in QuestionAnswer.tsx),
the authentication context (AuthContext.tsx) and the dashboard page.
Those are embedded below as pure state-transition functions: each React
event handler becomes a function from the component state (and the
outcome of its awaited HTTP call, supplied as an explicit argument)
to the next component state.

The backend pipeline (Text Extractor, Vector Index, Answerer) is not
among the sources; where a claim depends on it, the definition is
modelled from the spec and marked as such in its doc comment.
-/

namespace SmartDocQA

/-! ## Client data model (QuestionAnswer.tsx, DocumentList component) -/

/-- Client-side document record as declared in DocumentList
(`interface Document`): the processing state is the single boolean
field `processed`. -/
structure Document where
  id : Nat
  title : String
  file : String
  uploaded_at : String
  processed : Bool
deriving DecidableEq, Repr

/-- The four-state processing enumeration of spec §4.5
(`pending → processing → ready | failed`). Modelled from the spec: the
backend state machine is not among the sources; this type is what the
spec says the status interface exposes. -/
inductive ProcessingState where
  | pending
  | processing
  | ready
  | failed
deriving DecidableEq, Repr, Fintype

/-- Status badge text rendered by DocumentList for a document:
`doc.processed ? 'Processed' : 'Processing...'`. -/
def statusLabel (d : Document) : String :=
  if d.processed then "Processed" else "Processing..."

/-- The right-hand panel DocumentList renders for the current selection. -/
inductive Panel where
  | questionAnswer (id : Nat) (title : String)
  | processingNotice (title : String)
  | selectPrompt
deriving DecidableEq, Repr

/-- Panel selection logic of DocumentList: the QuestionAnswer form is
rendered only for a selected document with `processed` true; an
unprocessed selection shows the processing notice; no selection shows
the select prompt. -/
def renderSelectedPanel : Option Document → Panel
  | some d => if d.processed then .questionAnswer d.id d.title
              else .processingNotice d.title
  | none => .selectPrompt

/-! ## QuestionAnswer component -/

/-- One question/answer exchange (`interface QAPair`); the `Date`
timestamp is modelled as a numeric clock value. -/
structure QAPair where
  question : String
  answer : String
  timestamp : Nat
deriving DecidableEq, Repr

/-- Local state of the QuestionAnswer component: the three `useState`
hooks `question`, `isLoading`, `qaPairs`. -/
structure QAState where
  question : String
  isLoading : Bool
  qaPairs : List QAPair
deriving DecidableEq, Repr

/-- State of the QuestionAnswer component at mount: `useState('')`,
`useState(false)`, `useState<QAPair[]>([])`. -/
def initialQAState : QAState :=
  { question := "", isLoading := false, qaPairs := [] }

/-- Whitespace trim modelling the JavaScript `question.trim()` guard:
drop whitespace from both ends. Defined by structural recursion over
the character list so that concrete inputs evaluate inside proofs. -/
def jsTrim (s : String) : String :=
  ⟨((s.data.dropWhile Char.isWhitespace).reverse.dropWhile Char.isWhitespace).reverse⟩

/-- Outcome of the awaited `axios.post` in handleSubmit: either the
response payload field `data.answer`, or a thrown error carrying its
cause. -/
inductive AskOutcome where
  | success (answer : String)
  | failure (err : String)
deriving DecidableEq, Repr

/-- The ask request the client emits: the document identifier (path
parameter of the URL) and the question text (the `{ question }` body). -/
structure AskRequest where
  documentId : Nat
  question : String
deriving DecidableEq, Repr

/-- URL of the ask endpoint for a document, as built in handleSubmit. -/
def askUrl (documentId : Nat) : String :=
  "http://localhost:8000/api/documents/" ++ toString documentId ++ "/ask_question/"

/-- The request handleSubmit issues from a given state: none when the
trimmed question is empty (the early `return`), otherwise the document
id with the untrimmed question text. -/
def askRequestOf (documentId : Nat) (s : QAState) : Option AskRequest :=
  if jsTrim s.question = "" then none
  else some { documentId := documentId, question := s.question }

/-- Completed run of handleSubmit in QuestionAnswer: guard on the
trimmed question, then on success prepend the new exchange and clear
the question, on error only `console.error`; the `finally` clause
resets `isLoading`. `now` is the `new Date()` wall-clock value. -/
def handleSubmit (now : Nat) (s : QAState) (outcome : AskOutcome) : QAState :=
  if jsTrim s.question = "" then s
  else
    match outcome with
    | .success ans =>
        { question := "",
          isLoading := false,
          qaPairs := { question := s.question, answer := ans, timestamp := now } :: s.qaPairs }
    | .failure _ =>
        { s with isLoading := false }

/-- The `disabled` expression on the Ask button:
`isLoading || !question.trim()`. -/
def submitDisabled (s : QAState) : Bool :=
  s.isLoading || jsTrim s.question == ""

/-- Remounting the QuestionAnswer component (different `key`, document
switch, page reload) discards local state and restarts at the hook
initial values. -/
def remount (_ : QAState) : QAState := initialQAState

/-- The answer text displayed for an exchange: the JSX interpolates
`pair.answer` itself into the answer node. -/
def displayedAnswer (p : QAPair) : String := p.answer

/-! ## DocumentList component: list state and delete -/

/-- Local state of DocumentList: the `documents` and `selectedDocument`
hooks (the `loading` hook does not interact with delete). -/
structure DLState where
  documents : List Document
  selectedDocument : Option Document
deriving DecidableEq, Repr

/-- Outcome of the awaited `axios.delete` in handleDelete: the request
either completes or throws. -/
inductive DeleteOutcome where
  | success
  | failure
deriving DecidableEq, Repr

/-- Completed run of handleDelete for id `documentId`: if the
`window.confirm` answer is false nothing happens and no request is
made; otherwise the DELETE endpoint is invoked and, when the request
succeeds, the list is filtered to the documents whose id differs and
the selection is cleared when `selectedDocument?.id === documentId`;
when the request throws, the catch only runs `console.error` and both
hooks are left unchanged. The boolean in the result records whether
the delete endpoint was invoked. -/
def handleDelete (confirmed : Bool) (outcome : DeleteOutcome) (documentId : Nat)
    (s : DLState) : DLState × Bool :=
  if confirmed then
    match outcome with
    | .success =>
        ({ documents := s.documents.filter (fun d => d.id ≠ documentId),
           selectedDocument :=
             match s.selectedDocument with
             | some sd => if sd.id = documentId then none else some sd
             | none => none },
         true)
    | .failure => (s, true)
  else (s, false)

/-! ## DocumentUpload component -/

/-- The `accept` attribute of the file input in DocumentUpload. -/
def uploadAccept : List String := [".pdf", ".txt"]

/-- Whether the file picker offers a file name: the browser matches the
`accept` extensions against the end of the name (suffix match on the
character sequence). -/
def acceptsFile (name : String) : Bool :=
  uploadAccept.any (fun ext => ext.data.isSuffixOf name.data)

/-! ## AuthContext -/

/-- Authenticated user record (`interface User`). -/
structure User where
  id : Nat
  username : String
deriving DecidableEq, Repr

/-- Observable state of the AuthProvider together with the two pieces
of ambient state it manages: the value under the `token` localStorage
key and the axios default `Authorization` header. -/
structure AuthState where
  user : Option User
  token : Option String
  localStorageToken : Option String
  authHeader : Option String
deriving DecidableEq, Repr

/-- Provider state at a fresh mount, before the initialization effect:
both hooks start at null, axios carries no default Authorization
header, and localStorage holds whatever was saved earlier. -/
def mountAuthState (saved : Option String) : AuthState :=
  { user := none, token := none, localStorageToken := saved, authHeader := none }

/-- The `useEffect` initializer: read the saved token; when present,
adopt it as the context token and set the axios header to
`Token <token>`. -/
def initEffect (s : AuthState) : AuthState :=
  match s.localStorageToken with
  | some t => { s with token := some t, authHeader := some ("Token " ++ t) }
  | none => s

/-- Outcome of the awaited auth POST: the response fields
`token`/`user_id`, or a thrown error. -/
inductive AuthOutcome where
  | success (token : String) (userId : Nat)
  | failure
deriving DecidableEq, Repr

/-- Completed run of `login`: on success adopt the returned token and
user, persist the token to localStorage, set the axios header and
return true; on error only `console.error` and return false. -/
def login (username : String) (outcome : AuthOutcome) (s : AuthState) : AuthState × Bool :=
  match outcome with
  | .success t uid =>
      ({ user := some { id := uid, username := username },
         token := some t,
         localStorageToken := some t,
         authHeader := some ("Token " ++ t) }, true)
  | .failure => (s, false)

/-- Completed run of `register`: identical state effect to `login`
(the email field only enters the request body). -/
def registerUser (username : String) (_email : String) (outcome : AuthOutcome) (s : AuthState) :
    AuthState × Bool :=
  match outcome with
  | .success t uid =>
      ({ user := some { id := uid, username := username },
         token := some t,
         localStorageToken := some t,
         authHeader := some ("Token " ++ t) }, true)
  | .failure => (s, false)

/-- The `logout` handler: clear token and user, remove the
localStorage entry, delete the axios header. -/
def logout (_ : AuthState) : AuthState :=
  { user := none, token := none, localStorageToken := none, authHeader := none }

/-- The header/token/localStorage consistency invariant: the axios
Authorization header is `Token <t>` exactly when the context token is
`t`, and the localStorage entry agrees with the context token. -/
def authInvariant (s : AuthState) : Prop :=
  s.localStorageToken = s.token ∧ s.authHeader = s.token.map (fun t => "Token " ++ t)

/-! ## Backend pipeline, modelled from the spec

None of the backend (Django) sources are available; the following
definitions are modelled from the spec sections cited in their doc
comments. -/

/-- Terminal extraction errors of spec §4.1/§7. -/
inductive ExtractError where
  | UnsupportedFormat
  | ExtractionFailed
deriving DecidableEq, Repr

/-- Raw uploaded file for the Text Extractor: a PDF is a sequence of
pages, plain text a single content string, anything else an
unsupported extension; `corrupt` marks unreadable input. -/
inductive RawFile where
  | pdf (pages : List String) (corrupt : Bool)
  | txt (content : String) (corrupt : Bool)
  | other (ext : String)
deriving DecidableEq, Repr

/-- Modelled from the spec: §4.1 Text Extractor. The extractor is not
among the sources. File type must be PDF or plain text, otherwise
`UnsupportedFormat`; corrupt input fails with `ExtractionFailed`; PDF
text is extracted page by page with empty pages dropped; plain text is
one block. -/
def extract : RawFile → Except ExtractError (List String)
  | .pdf pages corrupt =>
      if corrupt then .error .ExtractionFailed
      else .ok (pages.filter (fun p => ¬ p.isEmpty))
  | .txt content corrupt =>
      if corrupt then .error .ExtractionFailed
      else .ok [content]
  | .other _ => .error .UnsupportedFormat

/-- One vector-index entry: passage ordinal, passage text, embedding
vector (floats modelled as rationals). -/
structure IndexEntry where
  ordinal : Nat
  text : String
  vector : List ℚ
deriving DecidableEq, Repr

/-- Result ordering of spec §4.4: higher similarity first, ties broken
by ascending passage ordinal. The compared pairs carry the similarity
score in the second component. -/
def rankLE (a b : IndexEntry × ℚ) : Bool :=
  decide (b.2 < a.2) || (decide (a.2 = b.2) && decide (a.1.ordinal ≤ b.1.ordinal))

/-- Modelled from the spec: §4.4 Vector Index `query`. The index is
not among the sources. Every entry is scored against the query vector
by the similarity metric `sim` (cosine similarity in the spec, kept
abstract here since it needs real square roots), the scored entries
are sorted by descending similarity with ties by ascending ordinal,
and the first k are returned — k is clamped to the passage count, not
an error. -/
def queryIndex (sim : List ℚ → List ℚ → ℚ) (entries : List IndexEntry)
    (v : List ℚ) (k : Nat) : List (IndexEntry × ℚ) :=
  (((entries.map (fun e => (e, sim e.vector v))).mergeSort rankLE)).take k

/-- Backend document for the Answerer: processing state plus the
entries of its vector index. -/
structure BackendDocument where
  state : ProcessingState
  entries : List IndexEntry

/-- Typed errors the ask endpoint surfaces (spec §7). -/
inductive AskError where
  | DocumentNotReady
  | AnswerGenerationFailed
deriving DecidableEq, Repr

/-- Modelled from the spec: §4.6 Retrieval-Augmented Answerer. The
Answerer is not among the sources. Precondition: the document state
must be ready, otherwise `DocumentNotReady`. Then the question is
embedded, the index queried for the top K passages, the retrieved
texts concatenated in retrieval order as context, and the generation
step (`gen`, failing with none) invoked; zero retrieved passages yield
the deterministic fallback; a generation failure surfaces as
`AnswerGenerationFailed`. -/
def answer (embed : String → List ℚ) (sim : List ℚ → List ℚ → ℚ)
    (gen : String → String → Option String) (K : Nat)
    (d : BackendDocument) (question : String) : Except AskError String :=
  if d.state = ProcessingState.ready then
    let results := queryIndex sim d.entries (embed question) K
    if results.isEmpty then .ok "no relevant content found"
    else
      let context := String.intercalate "\n" (results.map (fun r => r.1.text))
      match gen question context with
      | some out => .ok out
      | none => .error .AnswerGenerationFailed
  else .error .DocumentNotReady

end SmartDocQA

/-! ## Helper lemmas -/

namespace SmartDocQA

/-- Filtering out the id of a list member is the same as erasing that
member, provided document ids are pairwise distinct. -/
theorem filter_id_ne_eq_erase (l : List Document) (d : Document)
    (hnodup : (l.map Document.id).Nodup) (hmem : d ∈ l) :
    l.filter (fun x => x.id ≠ d.id) = l.erase d := by
  induction l with
  | nil => cases hmem
  | cons x xs ih =>
    rw [List.map_cons, List.nodup_cons] at hnodup
    obtain ⟨hx, hxs⟩ := hnodup
    by_cases hxd : x = d
    · subst hxd
      rw [List.erase_cons_head, List.filter_cons_of_neg (by simp)]
      refine List.filter_eq_self.mpr ?_
      intro a ha
      simp only [decide_eq_true_eq]
      intro hcontra
      exact hx (hcontra ▸ List.mem_map_of_mem Document.id ha)
    · have hdxs : d ∈ xs := by
        cases hmem with
        | head => exact absurd rfl hxd
        | tail _ h => exact h
      have hxid : x.id ≠ d.id := fun hEq =>
        hx (hEq ▸ List.mem_map_of_mem Document.id hdxs)
      rw [List.filter_cons_of_pos (by simpa using hxid),
        List.erase_cons_tail (by simpa using hxd), ih hxs hdxs]

/-- The result ordering of queryIndex, as a relation on scored
entries: strictly higher similarity first, ties by ordinal. -/
theorem sorted_rankLE (l : List (IndexEntry × ℚ)) :
    (l.mergeSort rankLE).Pairwise (fun a b => rankLE a b) := by
  apply List.sorted_mergeSort
  · intro a b c hab hbc
    simp only [rankLE, Bool.or_eq_true, Bool.and_eq_true, decide_eq_true_eq] at *
    rcases hab with h1 | ⟨h1, h1o⟩ <;> rcases hbc with h2 | ⟨h2, h2o⟩
    · exact Or.inl (h2.trans h1)
    · exact Or.inl (h2 ▸ h1)
    · exact Or.inl (h1 ▸ h2)
    · exact Or.inr ⟨h1.trans h2, h1o.trans h2o⟩
  · intro a b
    simp only [rankLE, Bool.or_eq_true, Bool.and_eq_true, decide_eq_true_eq]
    rcases lt_trichotomy a.2 b.2 with h | h | h
    · exact Or.inr (Or.inl h)
    · rcases Nat.le_total a.1.ordinal b.1.ordinal with ho | ho
      · exact Or.inl (Or.inr ⟨h, ho⟩)
      · exact Or.inr (Or.inr ⟨h.symm, ho⟩)
    · exact Or.inl (Or.inl h)

/-! ## Claim theorems -/

/-- Claim C1 counterexample: the processing state the list interface exposes
to the client is the boolean field `processed` of `Document`; the
four-state enumeration `ProcessingState` does not embed into it — no
injective map exists, so pending/processing/failed are not
distinguishable in the type the client consumes. -/
theorem no_injection_of_states_into_processed_flag :
    ¬ ∃ f : ProcessingState → Bool, Function.Injective f := by decide

/-- Claim C1 (amended): the client represents the processing state as the
two-valued `processed` flag; the status badge shows exactly
`Processed` or `Processing...` according to the flag, and the question
form is gated on the flag alone. -/
theorem processed_flag_two_valued (d : Document) :
    (statusLabel d = "Processed" ↔ d.processed = true) ∧
    (statusLabel d = "Processing..." ↔ d.processed = false) ∧
    (renderSelectedPanel (some d) = Panel.questionAnswer d.id d.title ↔ d.processed = true) := by
  cases hp : d.processed <;>
    simp [statusLabel, renderSelectedPanel, hp]

/-- Claim C2 counterexample: at state (question `q`, loading, no exchanges),
a failed ask leaves the exchange list unchanged, and the resulting
component state is identical for a DocumentNotReady-shaped failure and
a generation failure — the handler records no distinguishable cause. -/
theorem failed_ask_leaves_no_cause :
    (handleSubmit 0 { question := "q", isLoading := true, qaPairs := [] }
        (.failure "DocumentNotReady")).qaPairs = [] ∧
    handleSubmit 0 { question := "q", isLoading := true, qaPairs := [] }
        (.failure "DocumentNotReady") =
      handleSubmit 0 { question := "q", isLoading := true, qaPairs := [] }
        (.failure "AnswerGenerationFailed") := ⟨rfl, rfl⟩

/-- Claim C2 (amended): on a failed ask the client handler swallows the
error: it only logs to the console, resets the loading flag, and
leaves the exchange list and question text unchanged; component states
after distinct failure causes are equal, so no user-visible,
cause-distinguishing error is recorded. -/
theorem failed_ask_swallowed (now : Nat) (s : QAState) (e e2 : String) :
    (handleSubmit now s (.failure e)).qaPairs = s.qaPairs ∧
    (handleSubmit now s (.failure e)).question = s.question ∧
    handleSubmit now s (.failure e) = handleSubmit now s (.failure e2) := by
  by_cases h : jsTrim s.question = "" <;> simp [handleSubmit, h]

/-- Claim C3: answer on a document whose state is not ready fails with
DocumentNotReady, and the client never renders the question form for a
document whose processed flag is false. -/
theorem answer_requires_ready (embed : String → List ℚ) (sim : List ℚ → List ℚ → ℚ)
    (gen : String → String → Option String) (K : Nat)
    (d : BackendDocument) (q : String) (doc : Document) (i : Nat) (t : String)
    (hd : d.state ≠ ProcessingState.ready) (hdoc : doc.processed = false) :
    answer embed sim gen K d q = .error .DocumentNotReady ∧
    renderSelectedPanel (some doc) ≠ .questionAnswer i t := by
  constructor
  · simp [answer, hd]
  · simp [renderSelectedPanel, hdoc]

/-- Claim C3 witness. -/
theorem answer_requires_ready_witness :
    answer (fun _ => []) (fun _ _ => 0) (fun _ _ => none) 3
        { state := .pending, entries := [] } "q" = .error .DocumentNotReady ∧
    renderSelectedPanel
        (some { id := 1, title := "t", file := "f", uploaded_at := "u", processed := false }) ≠
      .questionAnswer 1 "t" :=
  answer_requires_ready (fun _ => []) (fun _ _ => 0) (fun _ _ => none) 3
    { state := .pending, entries := [] } "q"
    { id := 1, title := "t", file := "f", uploaded_at := "u", processed := false } 1 "t"
    (by decide) rfl

/-- Claim C4: a non-blank submission issues exactly (documentId, question
text) to the ask endpoint; on a response payload with answer `ans` the
new exchange records `ans` verbatim at the head of the list and the
displayed answer text of that exchange is `ans` itself. -/
theorem ask_sends_id_question_and_displays_answer_verbatim
    (docId now : Nat) (s : QAState) (ans : String) (h : jsTrim s.question ≠ "") :
    askRequestOf docId s = some { documentId := docId, question := s.question } ∧
    (handleSubmit now s (.success ans)).qaPairs =
      { question := s.question, answer := ans, timestamp := now } :: s.qaPairs ∧
    ((handleSubmit now s (.success ans)).qaPairs.head?.map displayedAnswer) = some ans := by
  simp [askRequestOf, handleSubmit, displayedAnswer, h]

/-- Claim C4 witness. -/
theorem ask_sends_id_question_witness :
    jsTrim "hi" ≠ "" ∧
    askRequestOf 7 { question := "hi", isLoading := false, qaPairs := [] } =
      some { documentId := 7, question := "hi" } :=
  ⟨by decide,
    (ask_sends_id_question_and_displays_answer_verbatim 7 0
      { question := "hi", isLoading := false, qaPairs := [] } "a" (by decide)).1⟩

/-- Claim C5: queryIndex returns exactly min(k, passage count) results — k
is clamped, not an error — sorted by descending similarity with ties
broken by ascending passage ordinal. -/
theorem queryIndex_count_and_order (sim : List ℚ → List ℚ → ℚ)
    (entries : List IndexEntry) (v : List ℚ) (k : Nat) :
    (queryIndex sim entries v k).length = min k entries.length ∧
    (queryIndex sim entries v k).Pairwise (fun a b =>
      b.2 < a.2 ∨ (a.2 = b.2 ∧ a.1.ordinal ≤ b.1.ordinal)) := by
  constructor
  · simp [queryIndex]
  · have hs := sorted_rankLE (entries.map (fun e => (e, sim e.vector v)))
    have ht := List.Pairwise.sublist (List.take_sublist k _) hs
    refine ht.imp ?_
    intro a b hab
    simpa [rankLE, Bool.or_eq_true, Bool.and_eq_true, decide_eq_true_eq] using hab

/-- Claim C6 counterexample: a confirmed delete of the listed document
of id 1 whose DELETE request fails leaves the document list unchanged
— the id-1 document is still listed and the selection is kept — while
the claim asserts that after every confirmed delete the list equals
the previous list with the id-1 document removed. -/
theorem failed_delete_leaves_list_unchanged :
    let d1 : Document := { id := 1, title := "a", file := "fa", uploaded_at := "ua", processed := true }
    let s : DLState := { documents := [d1], selectedDocument := some d1 }
    (handleDelete true .failure 1 s).1 = s ∧
    d1 ∈ (handleDelete true .failure 1 s).1.documents ∧
    (handleDelete true .failure 1 s).1.selectedDocument = some d1 := by
  exact ⟨rfl, by decide, rfl⟩

/-- Claim C6 (amended): every confirmed delete of a listed document
invokes the delete endpoint; when the DELETE request succeeds the
document list afterwards equals the previous list with exactly that
document erased (all other entries unchanged, in order) and the
selection is cleared exactly when the deleted document was the
selected one; when the request fails the handler only logs to the
console and the list and selection are unchanged. -/
theorem confirmed_delete_removes_exactly (s : DLState) (d : Document)
    (hnodup : (s.documents.map Document.id).Nodup) (hmem : d ∈ s.documents) :
    (∀ o, (handleDelete true o d.id s).2 = true) ∧
    (handleDelete true .success d.id s).1.documents = s.documents.erase d ∧
    (∀ sd, s.selectedDocument = some sd →
      (handleDelete true .success d.id s).1.selectedDocument =
        (if sd.id = d.id then none else some sd)) ∧
    (s.selectedDocument = none →
      (handleDelete true .success d.id s).1.selectedDocument = none) ∧
    (handleDelete true .failure d.id s).1 = s := by
  refine ⟨fun o => ?_, ?_, ?_, ?_, rfl⟩
  · cases o <;> rfl
  · simpa [handleDelete] using filter_id_ne_eq_erase s.documents d hnodup hmem
  · intro sd hsd
    simp [handleDelete, hsd]
  · intro hnone
    simp [handleDelete, hnone]

/-- Claim C6 witness. -/
theorem confirmed_delete_removes_exactly_witness :
    let d1 : Document := { id := 1, title := "a", file := "fa", uploaded_at := "ua", processed := true }
    let d2 : Document := { id := 2, title := "b", file := "fb", uploaded_at := "ub", processed := false }
    let s : DLState := { documents := [d1, d2], selectedDocument := some d1 }
    (handleDelete true .success 1 s).1.documents = [d2] ∧
    (handleDelete true .success 1 s).1.selectedDocument = none := by
  intro d1 d2 s
  have h := confirmed_delete_removes_exactly s d1 (by decide) (by decide)
  refine ⟨?_, ?_⟩
  · rw [h.2.1]; decide
  · have := h.2.2.1 d1 rfl
    simpa using this

/-- Claim C7: the Text Extractor accepts only PDF and plain text — every
other file type fails with UnsupportedFormat and only those do — and
the upload file picker accepts exactly names ending in `.pdf` or
`.txt`. -/
theorem only_pdf_txt_accepted (ext name : String) (f : RawFile)
    (hn : acceptsFile name = true)
    (hu : extract f = .error .UnsupportedFormat) :
    extract (.other ext) = .error .UnsupportedFormat ∧
    (".pdf".data.isSuffixOf name.data = true ∨ ".txt".data.isSuffixOf name.data = true) ∧
    (∀ pages c, extract (.pdf pages c) ≠ .error .UnsupportedFormat) ∧
    (∀ content c, extract (.txt content c) ≠ .error .UnsupportedFormat) ∧
    (∃ e, f = .other e) := by
  refine ⟨rfl, ?_, ?_, ?_, ?_⟩
  · simpa [acceptsFile, uploadAccept] using hn
  · intro pages c
    cases c <;> simp [extract]
  · intro content c
    cases c <;> simp [extract]
  · cases f with
    | pdf pages c => cases c <;> simp [extract] at hu
    | txt content c => cases c <;> simp [extract] at hu
    | other e => exact ⟨e, rfl⟩

/-- Claim C7 witness. -/
theorem only_pdf_txt_accepted_witness :
    acceptsFile "a.pdf" = true ∧
    extract (.other ".docx") = .error .UnsupportedFormat ∧
    (".pdf".data.isSuffixOf "a.pdf".data = true ∨ ".txt".data.isSuffixOf "a.pdf".data = true) :=
  ⟨by decide, rfl,
    (only_pdf_txt_accepted ".docx" "a.pdf" (.other ".docx") (by decide) rfl).2.1⟩

/-- Claim C8: exchanges are ephemeral — the exchange list lives only in the
QuestionAnswer local state, which every remount resets to the hook
initial values, so a remounted component has an empty history. -/
theorem exchanges_ephemeral (s : QAState) :
    remount s = initialQAState ∧ (remount s).qaPairs = [] ∧ initialQAState.qaPairs = [] :=
  ⟨rfl, rfl, rfl⟩

/-- Claim C9: a submission with a blank (empty or whitespace-only) question
issues no ask request and leaves the component state unchanged, and
the Ask button is disabled whenever the trimmed question is blank or a
request is in flight. -/
theorem blank_question_no_request (now docId : Nat) (s t : QAState) (r : AskOutcome)
    (h : jsTrim s.question = "") (ht : t.isLoading = true) :
    askRequestOf docId s = none ∧
    handleSubmit now s r = s ∧
    submitDisabled s = true ∧
    submitDisabled t = true := by
  refine ⟨?_, ?_, ?_, ?_⟩
  · simp [askRequestOf, h]
  · simp [handleSubmit, h]
  · simp [submitDisabled, h]
  · simp [submitDisabled, ht]

/-- Claim C9 witness. -/
theorem blank_question_no_request_witness :
    jsTrim "  " = "" ∧
    askRequestOf 3 { question := "  ", isLoading := false, qaPairs := [] } = none :=
  ⟨by decide,
    (blank_question_no_request 0 3 { question := "  ", isLoading := false, qaPairs := [] }
      { question := "x", isLoading := true, qaPairs := [] } (.success "a")
      (by decide) rfl).1⟩

/-- Claim C10: the initialization effect and every completed login, register
and logout preserve the header/token/localStorage invariant; login and
register return true and install the returned token on success, and on
failure return false leaving the whole state unchanged. -/
theorem auth_header_token_invariant (saved : Option String) (uname email tok : String)
    (uid : Nat) (r : AuthOutcome) (s : AuthState) (hs : authInvariant s) :
    authInvariant (initEffect (mountAuthState saved)) ∧
    authInvariant (login uname r s).1 ∧
    authInvariant (registerUser uname email r s).1 ∧
    authInvariant (logout s) ∧
    (login uname (.success tok uid) s).2 = true ∧
    (login uname (.success tok uid) s).1.token = some tok ∧
    (registerUser uname email (.success tok uid) s).2 = true ∧
    login uname .failure s = (s, false) ∧
    registerUser uname email .failure s = (s, false) := by
  refine ⟨?_, ?_, ?_, ?_, rfl, rfl, rfl, rfl, rfl⟩
  · cases saved <;> simp [initEffect, mountAuthState, authInvariant]
  · cases r with
    | success t' uid' => simp [login, authInvariant]
    | failure => exact hs
  · cases r with
    | success t' uid' => simp [registerUser, authInvariant]
    | failure => exact hs
  · simp [logout, authInvariant]

/-- Claim C10 witness. -/
theorem auth_header_token_invariant_witness :
    authInvariant { user := none, token := none, localStorageToken := none, authHeader := none } ∧
    authInvariant (initEffect (mountAuthState (some "tok"))) :=
  ⟨⟨rfl, rfl⟩,
    (auth_header_token_invariant (some "tok") "u" "e" "tok" 1 .failure
      { user := none, token := none, localStorageToken := none, authHeader := none }
      ⟨rfl, rfl⟩).1⟩

end SmartDocQA
